import Mathlib

/-!
Verification of the Dev Joke Bot (`src/app.py`): a shallow embedding of its
prompt builders, completion-client wrapper and per-render session loop,
followed by theorems about the specified behaviour.
-/

set_option maxHeartbeats 1000000
set_option maxRecDepth 16384

namespace DevJokeBot

/-- A single chat turn: a role ("system", "user" or "assistant") together with
its text content.  Embeds the Python dicts of shape
`\x7b"role": ..., "content": ...\x7d` used throughout `src/app.py`. -/
structure Turn where
  role : String
  content : String
deriving DecidableEq

/-- The payload of one call to the chat-completions endpoint, as assembled by
`generate_reply` in `src/app.py`: the model identifier, the ordered message
list, and the number of requested candidate completions (`generate_reply`
passes no override, so this is the underlying API default of 1). -/
structure ChatRequest where
  model : String
  messages : List Turn
  n : Nat
deriving DecidableEq

/-- One candidate completion inside a completion-service response. -/
structure Choice where
  message : Turn
deriving DecidableEq

/-- The part of the completion-service response consumed by `src/app.py`:
the ordered list of candidate choices. -/
structure ChatResponse where
  choices : List Choice
deriving DecidableEq

/-- An abstract completion client: maps a request either to a response or to
a raised exception (modelled by its message string).  This is the boundary
crossed by `client.chat.completions.create` in `src/app.py`. -/
def Client : Type := ChatRequest → Except String ChatResponse

/-- The family-friendly clause of `build_system_prompt` (line 15 of
`src/app.py`). -/
def ffClause : String :=
  "Keep it clean, inclusive, and family-friendly. Avoid offensive, derogatory, or NSFW content."

/-- The fixed persona line of `build_system_prompt` (line 26). -/
def personaLine : String :=
  "You are a witty, friendly comedian AI who tells programming-related jokes."

/-- The clause emitted by `build_system_prompt` when `explain` is true
(line 24). -/
def explainYesClause : String :=
  "Optionally add a very brief one-line explanation after each joke, labeled 'Why: ...'."

/-- The clause emitted by `build_system_prompt` when `explain` is false
(line 24). -/
def explainNoClause : String :=
  "Do not add any explanations, only the jokes."

/-- The closing style note of `build_system_prompt` (line 31). -/
def closingNote : String :=
  "Keep jokes concise. Prefer original twists. Avoid repeating the same pattern."

/-- The default style clause used for `"Surprise me"` and for any style
missing from the dictionary (line 17 and the `.get` default, line 23). -/
def defaultStyleClause : String :=
  "Use any playful style that suits the topic."

/-- The style-to-instruction dictionary lookup with default from
`build_system_prompt` in `src/app.py` (lines 16-23, the literal dict plus
`.get(style, default)`). -/
def styleInstr (style : String) : String :=
  if style = "Surprise me" then "Use any playful style that suits the topic."
  else if style = "One-liners" then "Prefer ultra-short, punchy one-liners."
  else if style = "Dad jokes" then "Lean into wholesome, groan-worthy dad-joke energy."
  else if style = "Puns" then "Favor wordplay and puns."
  else if style = "Roasts (gentle)" then
    "Do lighthearted, gentle roasts about code or tools without attacking people."
  else if style = "Haiku" then
    "Format jokes as haiku. Keep syllable balance approximate, content humorous."
  else "Use any playful style that suits the topic."

/-- `build_system_prompt` from `src/app.py` (lines 14-32).  Python f-string
interpolation becomes `++` and `toString`; the source's inline string
literals are the named clause constants above (their values are the
literals verbatim); `joke_count` is an arbitrary integer (the UI clamps it
to 1-5, the function itself does not). -/
def build_system_prompt (style : String) (joke_count : Int)
    (family_friendly : Bool) (explain : Bool) : String :=
  let ff := if family_friendly then ffClause else ""
  let style_instr := styleInstr style
  let explain_instr := if explain then explainYesClause else explainNoClause
  (personaLine ++ "\n")
    ++ (ff ++ "\n")
    ++ ("Style preference: " ++ style_instr ++ "\n")
    ++ ("Number of jokes: " ++ toString joke_count
        ++ " (separate jokes with blank lines).\n")
    ++ (explain_instr ++ "\n")
    ++ closingNote

/-- The fallback instruction of `build_contextual_instruction` (line 41). -/
def fallbackInstruction : String :=
  "Tell programming jokes. If no topic is given, pick common developer themes."

/-- Theme clause produced by `build_contextual_instruction` for a non-blank
language/stack input (line 37); its argument is the already-stripped text. -/
def themeClause (s : String) : String :=
  "Focus on the programming language or stack: " ++ s ++ "."

/-- Topics clause produced by `build_contextual_instruction` for a non-blank
topics input (line 39); its argument is the already-stripped text. -/
def topicsClause (s : String) : String :=
  "User requested topic/keywords: " ++ s ++ "."

/-- Whitespace as recognised by Python `str.strip()`, restricted to the
ASCII whitespace characters. -/
def isPySpace (c : Char) : Bool :=
  c = ' ' || c = '\t' || c = '\n' || c = '\r' || c = '\x0b' || c = '\x0c'

/-- Python `str.strip()`: drop leading and trailing whitespace. -/
def strip (s : String) : String :=
  ⟨((s.data.dropWhile isPySpace).reverse.dropWhile isPySpace).reverse⟩

/-- `build_contextual_instruction` from `src/app.py` (lines 34-42).  Python
`str.strip()` is embedded as `strip`, and the truthiness test
`if s.strip():` as a comparison with `""`. -/
def build_contextual_instruction (language_theme : String) (topics : String) : String :=
  let extras : List String :=
    (if strip language_theme ≠ "" then
        ["Focus on the programming language or stack: " ++ strip language_theme ++ "."]
      else [])
    ++ (if strip topics ≠ "" then
        ["User requested topic/keywords: " ++ strip topics ++ "."]
      else [])
  if extras = [] then
    "Tell programming jokes. If no topic is given, pick common developer themes."
  else String.intercalate " " extras

/-- The request `generate_reply` sends (lines 52-55): the fixed model
identifier `"gpt-4"`, the system prompt prepended as a single system-role
message before the conversation, and the API-default single candidate. -/
def chatRequest (system_prompt : String) (conversation : List Turn) : ChatRequest :=
  ⟨"gpt-4", ⟨"system", system_prompt⟩ :: conversation, 1⟩

/-- `generate_reply` from `src/app.py` (lines 47-56).  A client error is
propagated unchanged; `response.choices[0]` on an empty choice list is the
Python IndexError, modelled as that exception's message. -/
def generate_reply (client : Client) (conversation : List Turn)
    (system_prompt : String) : Except String String :=
  match client (chatRequest system_prompt conversation) with
  | Except.error e => Except.error e
  | Except.ok response =>
    match response.choices with
    | [] => Except.error "IndexError: list index out of range"
    | c :: _ => Except.ok c.message.content

/-- The canned suggestion texts of `suggested_prompts` (lines 94-101). -/
def suggestions : List String :=
  ["Tell me a Python joke", "Jokes about debugging", "Make a pun about Git",
   "Frontend vs backend joke", "Cloud ops humor", "SQL jokes"]

/-- The sidebar widget values read on a render pass (`sidebar_controls`,
lines 65-79). -/
structure Options where
  style : String
  joke_count : Int
  family_friendly : Bool
  explain : Bool
  language_theme : String
deriving DecidableEq

/-- The user-interaction events feeding one render pass: whether the sidebar
Clear button was clicked, which suggestion button (if any) was clicked, and
the chat-input submission (if any).  On the pass triggered by
`st.experimental_rerun()` all three are absent: a Streamlit button reads
`True` and `st.chat_input` returns a value only on the single pass caused by
that very interaction. -/
structure Events where
  clearClicked : Bool
  suggestionClicked : Option (Fin suggestions.length)
  chatInput : Option String

/-- What one top-to-bottom run of the script produces: the session message
list afterwards, the completion requests issued during the run, whether a
rerun was requested (`st.experimental_rerun`), and the error banner shown by
`st.error`, if any. -/
structure RunResult where
  messages : List Turn
  requests : List ChatRequest
  rerun : Bool
  errorShown : Option String
deriving DecidableEq

/-- One top-to-bottom execution of `main` in `src/app.py` (lines 108-138),
including the Clear branch of `sidebar_controls` (lines 76-78) and the
button branch of `suggested_prompts` (lines 102-106).
`st.experimental_rerun()` aborts the run, so later stages are skipped when
an earlier branch fires; suggestion buttons are rendered (hence clickable)
only when the history is empty (line 113); the chat branch runs only on a
non-empty submission (`if user_input:`, line 119). -/
def runScript (client : Client) (opts : Options) (ev : Events)
    (messages : List Turn) : RunResult :=
  if ev.clearClicked then ⟨[], [], true, none⟩
  else
    match (if messages.isEmpty then ev.suggestionClicked else none) with
    | some i => ⟨messages ++ [⟨"user", suggestions.get i⟩], [], true, none⟩
    | none =>
      match ev.chatInput with
      | none => ⟨messages, [], false, none⟩
      | some user_input =>
        if user_input = "" then ⟨messages, [], false, none⟩
        else
          let system_prompt :=
            build_system_prompt opts.style opts.joke_count opts.family_friendly opts.explain
          let context_instruction :=
            build_contextual_instruction opts.language_theme user_input
          let conversation := messages ++ [⟨"user", context_instruction⟩]
          match generate_reply client conversation system_prompt with
          | Except.ok reply =>
            ⟨conversation ++ [⟨"assistant", reply⟩],
             [chatRequest system_prompt conversation], false, none⟩
          | Except.error e =>
            ⟨conversation, [chatRequest system_prompt conversation], false,
             some ("Error: " ++ e)⟩

/-- A completion client that always answers with one fixed assistant choice. -/
def okClient : Client := fun _ =>
  Except.ok ⟨[⟨⟨"assistant", "Why do programmers prefer dark mode? Light attracts bugs."⟩⟩]⟩

/-- A completion client that always raises. -/
def errClient : Client := fun _ => Except.error "boom"

/-- The widget defaults of `sidebar_controls`: style index 0, two jokes,
family-friendly on, explanations off, empty theme field. -/
def defaultOptions : Options := ⟨"Surprise me", 2, true, false, ""⟩

/-- The six selectable style values of the sidebar selectbox (lines 67-71). -/
def fixedStyles : List String :=
  ["Surprise me", "One-liners", "Dad jokes", "Puns", "Roasts (gentle)", "Haiku"]

/-- Substring containment on strings, stated as list-infix on the underlying
character data. -/
abbrev containsStr (s sub : String) : Prop := sub.data <:+: s.data

/-! ### Helper lemmas -/

/-- `build_system_prompt` flattened into its clause constants. -/
theorem bsp_parts (style : String) (jc : Int) (fb ex : Bool) :
    build_system_prompt style jc fb ex =
      personaLine ++ "\n" ++ (if fb then ffClause else "") ++ "\n"
        ++ "Style preference: " ++ styleInstr style ++ "\n"
        ++ "Number of jokes: " ++ toString jc
        ++ " (separate jokes with blank lines).\n"
        ++ (if ex then explainYesClause else explainNoClause) ++ "\n"
        ++ closingNote := by
  apply String.ext
  simp [build_system_prompt, List.append_assoc]

/-- A style outside the fixed six falls through every dictionary entry. -/
theorem styleInstr_unknown {style : String} (h : style ∉ fixedStyles) :
    styleInstr style = defaultStyleClause := by
  simp only [fixedStyles, List.mem_cons, List.not_mem_nil, or_false, not_or] at h
  obtain ⟨h1, h2, h3, h4, h5, h6⟩ := h
  simp [styleInstr, defaultStyleClause, h1, h2, h3, h4, h5, h6]

/-- The system prompt always contains the mapped style clause. -/
theorem contains_styleInstr (style : String) (jc : Int) (fb ex : Bool) :
    containsStr (build_system_prompt style jc fb ex) (styleInstr style) := by
  refine ⟨(personaLine ++ "\n" ++ (if fb then ffClause else "") ++ "\n"
      ++ "Style preference: ").data,
    ("\n" ++ "Number of jokes: " ++ toString jc
      ++ " (separate jokes with blank lines).\n"
      ++ (if ex then explainYesClause else explainNoClause) ++ "\n"
      ++ closingNote).data, ?_⟩
  rw [bsp_parts]
  simp [List.append_assoc]

/-- With `family_friendly` set, the system prompt contains the
family-friendly clause. -/
theorem contains_ffClause (style : String) (jc : Int) (ex : Bool) :
    containsStr (build_system_prompt style jc true ex) ffClause := by
  refine ⟨(personaLine ++ "\n").data,
    ("\n" ++ "Style preference: " ++ styleInstr style ++ "\n"
      ++ "Number of jokes: " ++ toString jc
      ++ " (separate jokes with blank lines).\n"
      ++ (if ex then explainYesClause else explainNoClause) ++ "\n"
      ++ closingNote).data, ?_⟩
  rw [bsp_parts]
  simp [List.append_assoc]

theorem digitChar_ne_comma (n : Nat) : Nat.digitChar n ≠ ',' := by
  rcases Nat.lt_or_ge n 16 with h | h
  · interval_cases n <;> decide
  · have hne : ∀ k : Nat, k < 16 → ¬ n = k := fun k hk => by omega
    unfold Nat.digitChar
    rw [if_neg (hne 0 (by norm_num)), if_neg (hne 1 (by norm_num)),
      if_neg (hne 2 (by norm_num)), if_neg (hne 3 (by norm_num)),
      if_neg (hne 4 (by norm_num)), if_neg (hne 5 (by norm_num)),
      if_neg (hne 6 (by norm_num)), if_neg (hne 7 (by norm_num)),
      if_neg (hne 8 (by norm_num)), if_neg (hne 9 (by norm_num)),
      if_neg (hne 10 (by norm_num)), if_neg (hne 11 (by norm_num)),
      if_neg (hne 12 (by norm_num)), if_neg (hne 13 (by norm_num)),
      if_neg (hne 14 (by norm_num)), if_neg (hne 15 (by norm_num))]
    decide

theorem comma_not_mem_toDigitsCore :
    ∀ (fuel n : Nat) (ds : List Char),
      ',' ∉ ds → ',' ∉ Nat.toDigitsCore 10 fuel n ds := by
  intro fuel
  induction fuel with
  | zero => intro n ds h; simpa [Nat.toDigitsCore] using h
  | succ fuel ih =>
    intro n ds h
    have hd : ',' ∉ (Nat.digitChar (n % 10) :: ds) := by
      simp only [List.mem_cons, not_or]
      exact ⟨fun hc => digitChar_ne_comma _ hc.symm, h⟩
    by_cases h0 : n / 10 = 0
    · simpa [Nat.toDigitsCore, h0] using hd
    · simpa [Nat.toDigitsCore, h0] using ih (n / 10) (Nat.digitChar (n % 10) :: ds) hd

theorem comma_not_mem_toString_nat (m : Nat) : ',' ∉ (toString m).data := by
  show ',' ∉ Nat.toDigitsCore 10 (m + 1) m []
  exact comma_not_mem_toDigitsCore (m + 1) m [] (by simp)

theorem comma_count_toString_int (n : Int) : List.count ',' (toString n).data = 0 := by
  apply List.count_eq_zero_of_not_mem
  cases n with
  | ofNat m => exact comma_not_mem_toString_nat m
  | negSucc m =>
    show ',' ∉ (("-" : String) ++ toString (m + 1)).data
    rw [String.data_append]
    simp only [List.mem_append, not_or]
    exact ⟨by decide, comma_not_mem_toString_nat (m + 1)⟩

theorem count_comma_styleInstr (style : String) :
    List.count ',' (styleInstr style).data ≤ 1 := by
  unfold styleInstr
  split_ifs <;> decide

theorem count_comma_explain (ex : Bool) :
    List.count ',' (if ex then explainYesClause else explainNoClause).data ≤ 1 := by
  cases ex <;> decide

theorem count_comma_bsp_false (style : String) (jc : Int) (ex : Bool) :
    List.count ',' (build_system_prompt style jc false ex).data ≤ 3 := by
  rw [bsp_parts]
  simp only [String.data_append, List.count_append, Bool.false_eq_true, if_false]
  have h1 := count_comma_styleInstr style
  have h2 := count_comma_explain ex
  have h3 := comma_count_toString_int jc
  have e1 : List.count ',' personaLine.data = 1 := by decide
  have e2 : List.count ',' ['\n'] = 0 := by decide
  have e3 : List.count ',' ([] : List Char) = 0 := by decide
  have e4 : List.count ','
      ['S', 't', 'y', 'l', 'e', ' ', 'p', 'r', 'e', 'f', 'e', 'r', 'e', 'n', 'c', 'e', ':', ' ']
      = 0 := by decide
  have e5 : List.count ','
      ['N', 'u', 'm', 'b', 'e', 'r', ' ', 'o', 'f', ' ', 'j', 'o', 'k', 'e', 's', ':', ' ']
      = 0 := by decide
  have e6 : List.count ','
      [' ', '(', 's', 'e', 'p', 'a', 'r', 'a', 't', 'e', ' ', 'j', 'o', 'k', 'e', 's', ' ',
       'w', 'i', 't', 'h', ' ', 'b', 'l', 'a', 'n', 'k', ' ', 'l', 'i', 'n', 'e', 's', ')',
       '.', '\n'] = 0 := by decide
  have e7 : List.count ',' closingNote.data = 0 := by decide
  simp only [e1, e2, e3, e4, e5, e6, e7]
  omega

/-! ### Claim theorems -/

/-- C1: for every chat submission, when the completion call succeeds the
session loop appends exactly one user turn holding the contextual
instruction built from the theme widget and the submitted text (not the raw
text itself), followed by exactly one assistant turn holding the reply; all
previously stored turns are unchanged. -/
theorem submission_success_appends_two_turns :
    ∀ (client : Client) (opts : Options) (history : List Turn) (input reply : String),
      input ≠ "" →
      generate_reply client
          (history ++ [⟨"user", build_contextual_instruction opts.language_theme input⟩])
          (build_system_prompt opts.style opts.joke_count opts.family_friendly opts.explain)
        = Except.ok reply →
      (runScript client opts ⟨false, none, some input⟩ history).messages =
        history ++ [⟨"user", build_contextual_instruction opts.language_theme input⟩,
          ⟨"assistant", reply⟩] := by
  intro client opts history input reply hne hok
  simp [runScript, hne, hok]

/-- Witness for C1: a concrete successful submission on an empty history. -/
theorem submission_success_appends_two_turns_witness :
    (runScript okClient defaultOptions ⟨false, none, some "Tell me a Python joke"⟩ []).messages =
      [] ++ [⟨"user", build_contextual_instruction "" "Tell me a Python joke"⟩,
        ⟨"assistant", "Why do programmers prefer dark mode? Light attracts bugs."⟩] :=
  submission_success_appends_two_turns okClient defaultOptions [] "Tell me a Python joke"
    "Why do programmers prefer dark mode? Light attracts bugs." (by decide) rfl

/-- C2: for every chat submission, if the completion call raises, the session
loop appends zero assistant turns, surfaces a visible error message, keeps
the appended user turn (no rollback), and makes exactly one request (no
retry or reclassification). -/
theorem submission_failure_keeps_history :
    ∀ (client : Client) (opts : Options) (history : List Turn) (input e : String),
      input ≠ "" →
      generate_reply client
          (history ++ [⟨"user", build_contextual_instruction opts.language_theme input⟩])
          (build_system_prompt opts.style opts.joke_count opts.family_friendly opts.explain)
        = Except.error e →
      (runScript client opts ⟨false, none, some input⟩ history).messages =
          history ++ [⟨"user", build_contextual_instruction opts.language_theme input⟩] ∧
      (runScript client opts ⟨false, none, some input⟩ history).errorShown =
          some ("Error: " ++ e) ∧
      (runScript client opts ⟨false, none, some input⟩ history).requests =
          [chatRequest
            (build_system_prompt opts.style opts.joke_count opts.family_friendly opts.explain)
            (history ++ [⟨"user", build_contextual_instruction opts.language_theme input⟩])] := by
  intro client opts history input e hne herr
  refine ⟨?_, ?_, ?_⟩ <;> simp [runScript, hne, herr]

/-- Witness for C2: a concrete failing submission on an empty history. -/
theorem submission_failure_keeps_history_witness :
    (runScript errClient defaultOptions ⟨false, none, some "Tell me a Python joke"⟩ []).messages =
      [] ++ [⟨"user", build_contextual_instruction "" "Tell me a Python joke"⟩] ∧
    (runScript errClient defaultOptions ⟨false, none, some "Tell me a Python joke"⟩ []).errorShown =
      some ("Error: " ++ "boom") ∧
    (runScript errClient defaultOptions ⟨false, none, some "Tell me a Python joke"⟩ []).requests =
      [chatRequest (build_system_prompt "Surprise me" 2 true false)
        ([] ++ [⟨"user", build_contextual_instruction "" "Tell me a Python joke"⟩])] :=
  submission_failure_keeps_history errClient defaultOptions [] "Tell me a Python joke" "boom"
    (by decide) rfl

/-- C3: `generate_reply` sends exactly one system-role entry holding the
system prompt followed by the conversation in order, under the fixed model
identifier, requesting a single candidate; it returns exactly the first
choice's message content, and any client error propagates unmodified. -/
theorem generate_reply_contract :
    ∀ (client : Client) (conversation : List Turn) (system_prompt : String),
      (chatRequest system_prompt conversation).model = "gpt-4" ∧
      (chatRequest system_prompt conversation).n = 1 ∧
      (chatRequest system_prompt conversation).messages =
        ⟨"system", system_prompt⟩ :: conversation ∧
      (∀ e, client (chatRequest system_prompt conversation) = Except.error e →
        generate_reply client conversation system_prompt = Except.error e) ∧
      (∀ (response : ChatResponse) (c : Choice) (rest : List Choice),
        client (chatRequest system_prompt conversation) = Except.ok response →
        response.choices = c :: rest →
        generate_reply client conversation system_prompt = Except.ok c.message.content) := by
  intro client conv sp
  refine ⟨rfl, rfl, rfl, fun e he => ?_, fun response c rest hok hch => ?_⟩
  · simp [generate_reply, he]
  · simp [generate_reply, hok, hch]

/-- Witness for C3: concrete error propagation and reply extraction. -/
theorem generate_reply_contract_witness :
    generate_reply errClient [⟨"user", "hi"⟩] "sys" = Except.error "boom" ∧
    generate_reply okClient [⟨"user", "hi"⟩] "sys" =
      Except.ok "Why do programmers prefer dark mode? Light attracts bugs." :=
  ⟨(generate_reply_contract errClient [⟨"user", "hi"⟩] "sys").2.2.2.1 "boom" rfl,
   (generate_reply_contract okClient [⟨"user", "hi"⟩] "sys").2.2.2.2
     ⟨[⟨⟨"assistant", "Why do programmers prefer dark mode? Light attracts bugs."⟩⟩]⟩
     ⟨⟨"assistant", "Why do programmers prefer dark mode? Light attracts bugs."⟩⟩ [] rfl rfl⟩

/-- C4: `build_contextual_instruction` is total by construction; on two blank
inputs it returns exactly the fixed fallback instruction, and otherwise the
space-separated concatenation of the theme clause (present iff the theme is
non-blank, mentioning the stripped theme) and the topics clause (present iff
the topics are non-blank, mentioning the stripped topics), in that order. -/
theorem contextual_instruction_cases :
    ∀ (language_theme topics : String),
      (strip language_theme = "" → strip topics = "" →
        build_contextual_instruction language_theme topics = fallbackInstruction) ∧
      (strip language_theme ≠ "" → strip topics = "" →
        build_contextual_instruction language_theme topics =
          themeClause (strip language_theme)) ∧
      (strip language_theme = "" → strip topics ≠ "" →
        build_contextual_instruction language_theme topics =
          topicsClause (strip topics)) ∧
      (strip language_theme ≠ "" → strip topics ≠ "" →
        build_contextual_instruction language_theme topics =
          themeClause (strip language_theme) ++ " " ++ topicsClause (strip topics)) := by
  intro lt t
  refine ⟨fun h1 h2 => ?_, fun h1 h2 => ?_, fun h1 h2 => ?_, fun h1 h2 => ?_⟩ <;>
    simp [build_contextual_instruction, h1, h2, fallbackInstruction, themeClause,
      topicsClause, String.intercalate, String.intercalate.go]

/-- Witness for C4: all four branches at concrete inputs. -/
theorem contextual_instruction_cases_witness :
    build_contextual_instruction "" "" = fallbackInstruction ∧
    build_contextual_instruction "Rust" "" = themeClause "Rust" ∧
    build_contextual_instruction "" "git puns" = topicsClause "git puns" ∧
    build_contextual_instruction "Rust" "git puns" =
      themeClause "Rust" ++ " " ++ topicsClause "git puns" :=
  ⟨(contextual_instruction_cases "" "").1 (by decide) (by decide),
   (contextual_instruction_cases "Rust" "").2.1 (by decide) (by decide),
   (contextual_instruction_cases "" "git puns").2.2.1 (by decide) (by decide),
   (contextual_instruction_cases "Rust" "git puns").2.2.2 (by decide) (by decide)⟩

/-- C5: for each of the six fixed style values the produced system prompt
contains that style's mapped instruction clause verbatim, and for any style
value outside the fixed set it contains the default clause; the function is
total, so unknown styles never raise an error. -/
theorem style_clause_verbatim :
    (∀ (jc : Int) (fb ex : Bool),
        containsStr (build_system_prompt "Surprise me" jc fb ex)
          "Use any playful style that suits the topic.")
  ∧ (∀ (jc : Int) (fb ex : Bool),
        containsStr (build_system_prompt "One-liners" jc fb ex)
          "Prefer ultra-short, punchy one-liners.")
  ∧ (∀ (jc : Int) (fb ex : Bool),
        containsStr (build_system_prompt "Dad jokes" jc fb ex)
          "Lean into wholesome, groan-worthy dad-joke energy.")
  ∧ (∀ (jc : Int) (fb ex : Bool),
        containsStr (build_system_prompt "Puns" jc fb ex)
          "Favor wordplay and puns.")
  ∧ (∀ (jc : Int) (fb ex : Bool),
        containsStr (build_system_prompt "Roasts (gentle)" jc fb ex)
          "Do lighthearted, gentle roasts about code or tools without attacking people.")
  ∧ (∀ (jc : Int) (fb ex : Bool),
        containsStr (build_system_prompt "Haiku" jc fb ex)
          "Format jokes as haiku. Keep syllable balance approximate, content humorous.")
  ∧ (∀ (style : String) (jc : Int) (fb ex : Bool), style ∉ fixedStyles →
        containsStr (build_system_prompt style jc fb ex) defaultStyleClause) := by
  refine ⟨fun jc fb ex => ?_, fun jc fb ex => ?_, fun jc fb ex => ?_, fun jc fb ex => ?_,
    fun jc fb ex => ?_, fun jc fb ex => ?_, fun style jc fb ex hs => ?_⟩
  · have h := contains_styleInstr "Surprise me" jc fb ex
    rwa [show styleInstr "Surprise me" = "Use any playful style that suits the topic."
      from by decide] at h
  · have h := contains_styleInstr "One-liners" jc fb ex
    rwa [show styleInstr "One-liners" = "Prefer ultra-short, punchy one-liners."
      from by decide] at h
  · have h := contains_styleInstr "Dad jokes" jc fb ex
    rwa [show styleInstr "Dad jokes" = "Lean into wholesome, groan-worthy dad-joke energy."
      from by decide] at h
  · have h := contains_styleInstr "Puns" jc fb ex
    rwa [show styleInstr "Puns" = "Favor wordplay and puns." from by decide] at h
  · have h := contains_styleInstr "Roasts (gentle)" jc fb ex
    rwa [show styleInstr "Roasts (gentle)"
        = "Do lighthearted, gentle roasts about code or tools without attacking people."
      from by decide] at h
  · have h := contains_styleInstr "Haiku" jc fb ex
    rwa [show styleInstr "Haiku"
        = "Format jokes as haiku. Keep syllable balance approximate, content humorous."
      from by decide] at h
  · have h := contains_styleInstr style jc fb ex
    rwa [styleInstr_unknown hs] at h

/-- Witness for C5: a concrete unknown style gets the default clause. -/
theorem style_clause_verbatim_witness :
    "Limerick" ∉ fixedStyles ∧
    containsStr (build_system_prompt "Limerick" 2 true false) defaultStyleClause :=
  ⟨by decide, style_clause_verbatim.2.2.2.2.2.2 "Limerick" 2 true false (by decide)⟩

/-- C6: the family-friendly clause appears in the system prompt exactly when
`family_friendly` is set: with it true the clause always appears, with it
false it never does, for every style, joke count and explain flag. -/
theorem family_friendly_clause_presence :
    ∀ (style : String) (jc : Int) (ex : Bool),
      containsStr (build_system_prompt style jc true ex) ffClause ∧
      ¬ containsStr (build_system_prompt style jc false ex) ffClause := by
  intro style jc ex
  refine ⟨contains_ffClause style jc ex, fun h => ?_⟩
  have hc := List.IsInfix.count_le h ','
  have h4 : List.count ',' ffClause.data = 4 := by decide
  have h3 := count_comma_bsp_false style jc ex
  omega

/-- Witness for C6 at a concrete instance. -/
theorem family_friendly_clause_presence_witness :
    containsStr (build_system_prompt "Puns" 3 true false) ffClause ∧
    ¬ containsStr (build_system_prompt "Puns" 3 false false) ffClause :=
  family_friendly_clause_presence "Puns" 3 false

/-- C7 (amended): a suggested-prompt press appends the canned text as a user
turn and requests a rerun, but the next render pass (which carries no new
widget events) invokes no completion and appends no assistant turn;
generation happens only on a later chat-input submission. -/
theorem suggestion_appends_without_generation :
    ∀ (client : Client) (opts : Options) (i : Fin suggestions.length),
      (runScript client opts ⟨false, some i, none⟩ []).messages =
          [⟨"user", suggestions.get i⟩] ∧
      (runScript client opts ⟨false, some i, none⟩ []).rerun = true ∧
      (runScript client opts ⟨false, some i, none⟩ []).requests = [] ∧
      (runScript client opts ⟨false, none, none⟩
          (runScript client opts ⟨false, some i, none⟩ []).messages).messages =
        [⟨"user", suggestions.get i⟩] ∧
      (runScript client opts ⟨false, none, none⟩
          (runScript client opts ⟨false, some i, none⟩ []).messages).requests = [] := by
  intro client opts i
  refine ⟨?_, ?_, ?_, ?_, ?_⟩ <;> simp [runScript]

/-- Counterexample for C7 as stated: with an always-succeeding client,
pressing the first suggestion on an empty history and then executing the
rerun pass leaves a lone canned user turn — the completion client is never
invoked and no assistant turn is produced without further user input. -/
theorem suggestion_no_generation_counterexample :
    (runScript okClient defaultOptions ⟨false, none, none⟩
        (runScript okClient defaultOptions ⟨false, some ⟨0, by decide⟩, none⟩ []).messages).requests
      = [] ∧
    (runScript okClient defaultOptions ⟨false, none, none⟩
        (runScript okClient defaultOptions ⟨false, some ⟨0, by decide⟩, none⟩ []).messages).messages
      = [⟨"user", "Tell me a Python joke"⟩] ∧
    (∀ t ∈ (runScript okClient defaultOptions ⟨false, none, none⟩
        (runScript okClient defaultOptions ⟨false, some ⟨0, by decide⟩, none⟩ []).messages).messages,
      t.role ≠ "assistant") := by
  refine ⟨rfl, rfl, ?_⟩
  decide

/-- C8 (amended): the system prompt is deterministic and is exactly the
newline-separated concatenation of the persona line, the family-friendly
clause slot (the clause when `family_friendly` is true, empty otherwise),
the style clause, the joke-count clause, the explanation-policy clause (the
add-explanations instruction when `explain` is true, the no-explanations
instruction otherwise) and the closing note. -/
theorem system_prompt_structure :
    ∀ (style : String) (jc : Int) (fb ex : Bool),
      build_system_prompt style jc fb ex =
        personaLine ++ "\n" ++ (if fb then ffClause else "") ++ "\n"
          ++ "Style preference: " ++ styleInstr style ++ "\n"
          ++ "Number of jokes: " ++ toString jc
          ++ " (separate jokes with blank lines).\n"
          ++ (if ex then explainYesClause else explainNoClause) ++ "\n"
          ++ closingNote :=
  bsp_parts

/-- Counterexample for C8 as stated: the `explain = false` prompt is not the
`explain = true` prompt with the explanation clause merely absent — no split
of the former as `A ++ B` matches the latter as `A ++ explanation ++ B`,
because `explain = false` inserts the alternative no-explanations
instruction instead of nothing. -/
theorem system_prompt_structure_counterexample :
    ¬ ∃ A B : String,
        build_system_prompt "Surprise me" 2 true true = A ++ (explainYesClause ++ B) ∧
        build_system_prompt "Surprise me" 2 true false = A ++ B := by
  rintro ⟨A, B, h1, h2⟩
  have l1 := congrArg String.length h1
  have l2 := congrArg String.length h2
  simp only [String.length_append] at l1 l2
  have n1 : (build_system_prompt "Surprise me" 2 true true).length = 447 := by decide
  have n2 : (build_system_prompt "Surprise me" 2 true false).length = 406 := by decide
  have n3 : explainYesClause.length = 85 := by decide
  omega

/-- C9: triggering the clear action empties the turn list, whatever the
current history. -/
theorem clear_empties_history :
    ∀ (client : Client) (opts : Options) (ev : Events) (history : List Turn),
      ev.clearClicked = true →
      (runScript client opts ev history).messages = [] := by
  intro client opts ev history h
  simp [runScript, h]

/-- Witness for C9: clearing a concrete non-empty history. -/
theorem clear_empties_history_witness :
    (runScript okClient defaultOptions ⟨true, none, none⟩ [⟨"user", "x"⟩]).messages = [] :=
  clear_empties_history okClient defaultOptions ⟨true, none, none⟩ [⟨"user", "x"⟩] rfl

/-- C10: any style outside the six fixed options produces exactly the same
system prompt as "Surprise me", for every joke count and flag choice. -/
theorem unknown_style_eq_surprise :
    ∀ (style : String) (jc : Int) (fb ex : Bool), style ∉ fixedStyles →
      build_system_prompt style jc fb ex = build_system_prompt "Surprise me" jc fb ex := by
  intro style jc fb ex h
  rw [bsp_parts, bsp_parts, styleInstr_unknown h,
    show styleInstr "Surprise me" = defaultStyleClause from by decide]

/-- Witness for C10 at a concrete unknown style. -/
theorem unknown_style_eq_surprise_witness :
    build_system_prompt "Knock-knock" 5 false true =
      build_system_prompt "Surprise me" 5 false true :=
  unknown_style_eq_surprise "Knock-knock" 5 false true (by decide)

end DevJokeBot
